import Mathlib

/-!
Formal model of the Gemini-backed interview-question generator in `stream.py`.

Python strings are modelled by Lean `String` (a packed `List Char`), and the
Python string operations the code uses (character slicing, `strip`,
`startswith`, `endswith`, truthiness) are given explicit character-level
definitions below, matching Python semantics (slicing by code point).

The external call `self.client.generate_content(prompt)` is modelled by a
`CallOutcome` argument: either a structured response object, or a raised
`google.api_core.exceptions.GoogleAPIError`, or any other raised exception,
both of which the code catches.  `json.loads` is modelled by an explicit
decoder argument of type `String → Except String Json`, where `Except.error`
corresponds to a raised `json.JSONDecodeError` carrying its message.
-/

/-- Python string truthiness: a string is truthy exactly when non-empty. -/
def py_truthy (s : String) : Bool := !s.data.isEmpty

/-- Remove leading and trailing whitespace characters from a character list. -/
def strip_chars (l : List Char) : List Char :=
  ((l.dropWhile Char.isWhitespace).reverse.dropWhile Char.isWhitespace).reverse

/-- Python `s.strip()`. -/
def py_strip (s : String) : String := String.mk (strip_chars s.data)

/-- Python `s[n:]`: drop the first `n` characters. -/
def py_drop (s : String) (n : Nat) : String := String.mk (s.data.drop n)

/-- Python `s[:-n]`: drop the last `n` characters. -/
def py_dropright (s : String) (n : Nat) : String :=
  String.mk (s.data.take (s.data.length - n))

/-- Python `s.startswith(p)`. -/
def py_startswith (s p : String) : Bool := s.data.take p.data.length == p.data

/-- Python `s.endswith(p)`. -/
def py_endswith (s p : String) : Bool :=
  s.data.drop (s.data.length - p.data.length) == p.data

/-- Decoded JSON values, as produced by `json.loads`.  An `obj` models a
decoded Python `dict` (duplicate keys already resolved by the decoder). -/
inductive Json where
  | null : Json
  | bool : Bool → Json
  | num : Int → Json
  | str : String → Json
  | arr : List Json → Json
  | obj : List (String × Json) → Json

/-- Python `questions.get(key, default)` on the decoded object. -/
def dict_get (key : String) (dflt : Json) : List (String × Json) → Json
  | [] => dflt
  | (k, v) :: rest => if k == key then v else dict_get key dflt rest

/-- The dictionary returned by `generate_questions_from_text`: four fixed
keys whose values are whatever JSON values `questions.get(...)` produced
(on the failure path `technical` is a one-element list of strings). -/
structure QuestionSet where
  technical : Json
  behavioral : Json
  project_specific : Json
  scenario_based : Json

/-- Lines 38-47, `_return_error_structure`: the uniform failure dictionary. -/
def return_error_structure (final_error_msg : String) : QuestionSet where
  technical := Json.arr [Json.str ("Error: " ++ final_error_msg)]
  behavioral := Json.arr []
  project_specific := Json.arr []
  scenario_based := Json.arr []

/-- Lines 179-184: the success dictionary, one lenient `get` per key. -/
def mk_question_set (fields : List (String × Json)) : QuestionSet where
  technical := dict_get "technical" (Json.arr []) fields
  behavioral := dict_get "behavioral" (Json.arr []) fields
  project_specific := dict_get "project_specific" (Json.arr []) fields
  scenario_based := dict_get "scenario_based" (Json.arr []) fields

/-- One safety rating attached to prompt feedback or to a candidate. -/
structure SafetyRating where
  category : String
  probability : String

/-- `response.prompt_feedback`: `block_reason` is `none` when the attribute
is absent or falsy (no block). -/
structure PromptFeedback where
  block_reason : Option String
  safety_ratings : List SafetyRating

/-- One content part; `text` is `none` when the part has no `text`
attribute, `some s` when it has one (possibly the empty string). -/
structure ContentPart where
  text : Option String

/-- `candidate.content`: a list of parts. -/
structure Content where
  parts : List ContentPart

/-- One candidate completion.  `finish_reason` is the numeric code
(STOP = 1 is the nominal termination). -/
structure Candidate where
  finish_reason : Int
  safety_ratings : List SafetyRating
  content : Option Content

/-- The structured completion object returned by `generate_content`. -/
structure GeminiResponse where
  prompt_feedback : Option PromptFeedback
  candidates : List Candidate

/-- Outcome of the single `self.client.generate_content(prompt)` call:
a response object, a raised `GoogleAPIError` (with `message` and `code`),
or any other raised exception (with its rendered message). -/
inductive CallOutcome where
  | ok : GeminiResponse → CallOutcome
  | googleApiError : String → Int → CallOutcome
  | otherError : String → CallOutcome

/-- The gateway state: whether `self.client` is set and `self.is_configured`. -/
structure Gateway where
  client : Bool
  is_configured : Bool

/-- Lines 125 and 221: `response.prompt_feedback and
response.prompt_feedback.block_reason` — the block reason exactly when both
are truthy. -/
def blocked_reason (response : GeminiResponse) : Option String :=
  match response.prompt_feedback with
  | none => none
  | some pf =>
      match pf.block_reason with
      | none => none
      | some r => if py_truthy r then some r else none

/-- Lines 127/150: `"\n".join(f"  - \x7br.category\x7d: \x7br.probability\x7d" ...)`. -/
def format_ratings (rs : List SafetyRating) : String :=
  String.intercalate "\n" (rs.map fun r => "  - " ++ r.category ++ ": " ++ r.probability)

/-- Line 142: the hard-coded finish-reason number-to-label map, with the
`UNKNOWN` fallback of line 144. -/
def reason_map (n : Int) : String :=
  if n = 0 then "UNSPECIFIED"
  else if n = 1 then "STOP"
  else if n = 2 then "MAX_TOKENS"
  else if n = 3 then "SAFETY"
  else if n = 4 then "RECITATION"
  else if n = 5 then "OTHER"
  else "UNKNOWN (" ++ toString n ++ ")"

/-- Lines 146-152: the dictionary-bound diagnostic for an atypical finish. -/
def atypical_detail_dict (c : Candidate) : String :=
  let base := "API request finished: " ++ reason_map c.finish_reason ++ "."
  if c.safety_ratings.isEmpty then base else base ++ " Check safety ratings."

/-- Lines 146-152: the UI-bound diagnostic for an atypical finish. -/
def atypical_detail_ui (c : Candidate) : String :=
  let base := "Gemini API request finished atypically. Reason: " ++ reason_map c.finish_reason ++ "."
  if c.safety_ratings.isEmpty then base
  else base ++ "\nSafety Ratings:\n" ++ format_ratings c.safety_ratings

/-- Line 162 generator filter: the `part.text` values kept by
`if hasattr(part, ...) and part.text`. -/
def text_fragments (parts : List ContentPart) : List String :=
  parts.filterMap fun p =>
    match p.text with
    | some t => if py_truthy t then some t else none
    | none => none

/-- Line 162: `"".join(...)` over the kept fragments. -/
def join_fragments (parts : List ContentPart) : String := String.join (text_fragments parts)

/-- Line 155: `any(p.text for p in candidate.content.parts if hasattr(p, ...))`. -/
def any_part_has_text (parts : List ContentPart) : Bool :=
  (parts.filterMap fun p => p.text).any fun t => py_truthy t

/-- Line 155 condition: `candidate.content and candidate.content.parts and any(...)`. -/
def has_usable_content (c : Candidate) : Bool :=
  match c.content with
  | some content => !content.parts.isEmpty && any_part_has_text content.parts
  | none => false

/-- Lines 160-162: the concatenated candidate text, left `""` when the
content or its parts are absent. -/
def candidate_text (c : Candidate) : String :=
  match c.content with
  | some content => if !content.parts.isEmpty then join_fragments content.parts else ""
  | none => ""

/-- Lines 170-176: strip whitespace, then a leading `"```json"` fence
(drop 7 characters) and a trailing `"```"` fence (drop 3 characters). -/
def clean_generated_text (t : String) : String :=
  let s0 := py_strip t
  let s1 := if py_startswith s0 "```json" then py_drop s0 7 else s0
  if py_endswith s1 "```" then py_dropright s1 3 else s1

/-- Python type name of a decoded JSON value, used to render the
`AttributeError` raised by `questions.get` on a non-dict value. -/
def json_type_name : Json → String
  | Json.null => "NoneType"
  | Json.bool _ => "bool"
  | Json.num _ => "int"
  | Json.str _ => "str"
  | Json.arr _ => "list"
  | Json.obj _ => "dict"

/-- Lines 177-202: from the `json.loads` outcome to the returned dictionary.
A decode fault is the caught `json.JSONDecodeError` (lines 186-192); calling
`.get` on a decoded non-dict raises `AttributeError`, caught by the final
`except Exception` handler (lines 198-202). -/
def json_to_question_set : Except String Json → QuestionSet
  | Except.error je => return_error_structure ("Malformed JSON from API: " ++ je)
  | Except.ok (Json.obj fields) => mk_question_set fields
  | Except.ok v =>
      return_error_structure
        ("Unexpected error: \u0027" ++ json_type_name v ++ "\u0027 object has no attribute \u0027get\u0027")

/-- Lines 124-202 (the body of the `try` once a response object exists):
classify the response, returning the surfaced warnings and the dictionary. -/
def process_response (loads : String → Except String Json) (response : GeminiResponse) :
    List String × QuestionSet :=
  match blocked_reason response with
  | some reason =>
      ([], return_error_structure ("Prompt blocked by safety settings (Reason: " ++ reason ++ ")."))
  | none =>
      match response.candidates with
      | [] => ([], return_error_structure "No candidates in API response.")
      | candidate :: _ =>
          if candidate.finish_reason != 1 && !has_usable_content candidate then
            ([], return_error_structure (atypical_detail_dict candidate))
          else
            let warnings :=
              if candidate.finish_reason != 1 then
                [atypical_detail_ui candidate ++ "\nAttempting to use partial content."]
              else []
            let generated_text := candidate_text candidate
            if (py_strip generated_text).data.isEmpty then
              (warnings, return_error_structure "Empty text content from API.")
            else
              (warnings, json_to_question_set (loads (clean_generated_text generated_text)))

/-- Lines 56-62: the job-description section, or the fixed placeholder. -/
def job_description_section (job_description_text : Option String) : String :=
  match job_description_text with
  | none => "No job description provided."
  | some s =>
      if py_truthy s && py_truthy (py_strip s) then
        "\n        **Job Description:**\n        ---\n        " ++ s ++ "\n        ---"
      else "No job description provided."

/-- Lines 64-69: the prompt text before the interpolated resume content. -/
def prompt_head : String :=
  "\n        You are an expert technical interviewer and career coach. Your task is to generate insightful interview questions based on the provided resume and job description. Aim for a comprehensive set of at least 25 questions, tailored to help a candidate prepare for internship interviews.\n\n        **Input Materials:**\n        ---\n        **Resume Content:**\n        "

/-- Lines 71-72: the prompt text between the resume and the job-description
section. -/
def prompt_between : String := "\n        ---\n        "

/-- Lines 73-119: the prompt text after the job-description section
(guidelines, category descriptions, and the required output format). -/
def prompt_tail : String :=
  "\n        ---\n\n        **Question Generation Guidelines:**\n        1.  **Relevance:** Prioritize questions that directly relate to skills, technologies, and experiences mentioned in BOTH the resume and the job description. If no JD, focus on resume.\n        2.  **Depth & Breadth:** Cover a range of topics from fundamental concepts to practical application.\n        3.  **Realism:** Formulate questions similar to those asked in actual internship interviews for tech roles.\n        4.  **Progression:** Include questions suitable for different interview stages (screening, technical deep-dive).\n        5.  **Clarity:** Ensure questions are unambiguous.\n\n        **Question Categories (ensure a good distribution, aiming for 25+ total):**\n\n        1.  **Technical Deep Dive (8-10 questions):**\n            *   Based on specific programming languages, frameworks, and tools listed (e.g., Python, React, Docker, Git).\n            *   Data structures and algorithms (e.g., \"Explain how you would use a hash map to optimize [specific scenario from resume/JD]?\").\n            *   Database concepts (SQL/NoSQL, querying, design if mentioned).\n            *   System design fundamentals (scaled appropriately for an intern, e.g., \"How would you design a simple URL shortener, focusing on the API and data storage?\").\n            *   Debugging and troubleshooting approaches.\n\n        2.  **Project-Specific (6-8 questions):**\n            *   Probe into specific projects listed on the resume.\n            *   \"On project X, you mentioned using Y technology. Can you walk me through a specific challenge you faced and how you overcame it?\"\n            *   \"What was your specific contribution to project Z? How did you collaborate with others?\"\n            *   \"If you could redo project A, what would you do differently and why?\"\n            *   \"How did you test your work on project B?\"\n\n        3.  **Behavioral & Situational (6-8 questions):** (Use STAR method for answering these)\n            *   \"Describe a time you had to learn a new technology quickly for a project.\"\n            *   \"Tell me about a challenging team project and how you handled disagreements.\"\n            *   \"How do you approach a task when the requirements are unclear?\"\n            *   \"Describe a mistake you made and what you learned from it.\"\n            *   (If JD is present) \"This role requires [skill from JD, e.g., \u0027strong problem-solving skills\u0027]. Can you give an example of how you\u0027ve demonstrated this?\"\n\n        4.  **Scenario-Based/Problem-Solving (4-6 questions):**\n            *   \"Imagine you\u0027re given a task to build [a small feature related to JD or resume skills]. What would be your initial steps and thought process?\"\n            *   \"How would you debug a situation where [common problem, e.g., \u0027a web application is running slower than expected\u0027]?\"\n            *   \"You\u0027ve pushed code that inadvertently broke a feature in production for a personal project. What steps would you take immediately?\"\n\n        **Output Format:**\n        Return a single, valid JSON object with the following structure. Do NOT include any text before or after the JSON object (e.g. no \"```json\" or \"```\").\n\n        \x7b\n            \"technical\": [\"Question 1 about tech...\", \"Question 2 about tech...\"],\n            \"behavioral\": [\"Question 1 about behavior...\", \"Question 2 about behavior...\"],\n            \"project_specific\": [\"Question 1 about project...\", \"Question 2 about project...\"],\n            \"scenario_based\": [\"Scenario question 1...\", \"Scenario question 2...\"]\n        \x7d\n        "

/-- Lines 64-119: the full generation prompt. -/
def build_questions_prompt (resume_text_content : String)
    (job_description_text : Option String) : String :=
  prompt_head ++ resume_text_content ++ prompt_between ++
    job_description_section job_description_text ++ prompt_tail

/-- One run of `generate_questions_from_text`: the outbound request prompt
(`none` when no call was issued), the Streamlit warnings surfaced, and the
returned dictionary. -/
structure GenQuestionsRun where
  request : Option String
  warnings : List String
  result : QuestionSet

/-- Lines 49-202, `generate_questions_from_text`.  The configured check is
line 50; on its failure no call is issued.  Otherwise the prompt is built
and the single call issued, and the three `except` arms of lines 186-202
convert every raised fault into the uniform failure dictionary. -/
def generate_questions_from_text (g : Gateway) (loads : String → Except String Json)
    (call : CallOutcome) (resume_text_content : String)
    (job_description_text : Option String) : GenQuestionsRun :=
  if !g.client || !g.is_configured then
    { request := none, warnings := [],
      result := return_error_structure "Gemini client not configured." }
  else
    match call with
    | CallOutcome.ok response =>
        { request := some (build_questions_prompt resume_text_content job_description_text),
          warnings := (process_response loads response).1,
          result := (process_response loads response).2 }
    | CallOutcome.googleApiError message _code =>
        { request := some (build_questions_prompt resume_text_content job_description_text),
          warnings := [],
          result := return_error_structure ("Gemini API Error: " ++ message) }
    | CallOutcome.otherError message =>
        { request := some (build_questions_prompt resume_text_content job_description_text),
          warnings := [],
          result := return_error_structure ("Unexpected error: " ++ message) }

/-- Lines 204-236, `generate_answer_for_question`: the simplified
classification used for answers.  Any non-STOP finish returns a diagnostic
immediately (line 227); when content parts exist the trimmed joined text is
returned (line 231), otherwise the fixed no-text diagnostic (line 232);
every raised fault is converted to an error string (lines 234-236). -/
def generate_answer_for_question (g : Gateway) (call : CallOutcome)
    (question_text : String) : String :=
  if !g.client || !g.is_configured then
    "Gemini client not configured. Cannot generate answer."
  else if !py_truthy question_text then
    "No question provided to generate an answer."
  else
    match call with
    | CallOutcome.ok response =>
        match blocked_reason response with
        | some reason => "Answer generation blocked by Gemini. Reason: " ++ reason
        | none =>
            match response.candidates with
            | [] => "Gemini returned no candidates for the answer."
            | candidate :: _ =>
                if candidate.finish_reason != 1 then
                  "Answer generation finished atypically. Reason: " ++
                    toString candidate.finish_reason
                else
                  match candidate.content with
                  | some content =>
                      if !content.parts.isEmpty then py_strip (join_fragments content.parts)
                      else "No text content found in Gemini response for the answer."
                  | none => "No text content found in Gemini response for the answer."
    | CallOutcome.googleApiError message _code => "Error generating answer: " ++ message
    | CallOutcome.otherError message => "Error generating answer: " ++ message

/-- Lines 314-321, the button handler: the gateway is invoked only when a
generator object exists in the session, it is configured, and the extracted
resume text (`none` when extraction failed) is truthy. -/
def app_generate_questions (gen_present : Bool) (g : Gateway)
    (loads : String → Except String Json) (call : CallOutcome)
    (resume_text : Option String) (job_description : Option String) :
    Option GenQuestionsRun :=
  if !gen_present || !g.is_configured then none
  else
    match resume_text with
    | some t =>
        if py_truthy t then some (generate_questions_from_text g loads call t job_description)
        else none
    | none => none

/-- Outcome of iterating `fitz` over the uploaded document: either every
text of each page in page order, or a fault raised after some pages were read. -/
inductive PdfOutcome where
  | pages : List String → PdfOutcome
  | failAfter : List String → String → PdfOutcome

/-- One run of `extract_text_from_pdf_bytes`: the returned value and the
diagnostics reported via `st.error`. -/
structure ExtractRun where
  result : Option String
  reported : List String

/-- Lines 239-249: accumulate `page.get_text()` in page order; any raised
fault is caught and reported, and `None` is returned (the partially
accumulated text is discarded, never returned). -/
def extract_text_from_pdf_bytes : PdfOutcome → ExtractRun
  | PdfOutcome.pages ps => { result := some (ps.foldl (· ++ ·) ""), reported := [] }
  | PdfOutcome.failAfter _ msg =>
      { result := none, reported := ["Error extracting text from PDF: " ++ msg] }

/-- A response carrying a single nominally terminated candidate whose sole
content part holds the given text; used to state claims about the
text-processing stages. -/
def plain_response (t : String) : GeminiResponse where
  prompt_feedback := none
  candidates := [{ finish_reason := 1, safety_ratings := [], content := some { parts := [{ text := some t }] } }]

/-- The failure shape of `QuestionSet`: three empty categories and exactly
one error-marker entry under `technical`. -/
def is_error_shape (qs : QuestionSet) : Prop :=
  qs.behavioral = Json.arr [] ∧ qs.project_specific = Json.arr [] ∧
  qs.scenario_based = Json.arr [] ∧
  ∃ msg, qs.technical = Json.arr [Json.str ("Error: " ++ msg)]

theorem string_data_append (s t : String) : (s ++ t).data = s.data ++ t.data := rfl

theorem string_nil_append (t : String) : "" ++ t = t := by cases t; rfl

theorem string_append_assoc (a b c : String) : (a ++ b) ++ c = a ++ (b ++ c) := by
  cases a; cases b; cases c
  exact congrArg String.mk (List.append_assoc _ _ _)

theorem join_singleton (t : String) : String.join [t] = t := string_nil_append t

theorem error_shape_return (m : String) : is_error_shape (return_error_structure m) :=
  ⟨rfl, rfl, rfl, m, rfl⟩

theorem json_to_qs_shape (r : Except String Json) :
    (∃ fields, json_to_question_set r = mk_question_set fields) ∨
      is_error_shape (json_to_question_set r) := by
  cases r with
  | error je => exact Or.inr (error_shape_return _)
  | ok v =>
      cases v with
      | obj fields => exact Or.inl ⟨fields, rfl⟩
      | null => exact Or.inr (error_shape_return _)
      | bool b => exact Or.inr (error_shape_return _)
      | num n => exact Or.inr (error_shape_return _)
      | str s => exact Or.inr (error_shape_return _)
      | arr xs => exact Or.inr (error_shape_return _)

/-- C1: for every classified-failure outcome of
`generate_questions_from_text` (not-configured, blocked prompt, no
candidates, atypical termination without usable content, empty text,
malformed JSON, transport error, or any other caught fault), the returned
`QuestionSet` has `behavioral`, `project_specific` and `scenario_based`
equal to empty sequences and `technical` containing exactly one string
beginning with the error marker `"Error: "`: every run either returns the
lenient success merge of a decoded object, or a result of that failure
shape. -/
theorem c1_classified_failure_shape (g : Gateway) (loads : String → Except String Json)
    (call : CallOutcome) (resume_text_content : String)
    (job_description_text : Option String) :
    (∃ fields, (generate_questions_from_text g loads call resume_text_content
        job_description_text).result = mk_question_set fields) ∨
      is_error_shape (generate_questions_from_text g loads call resume_text_content
        job_description_text).result := by
  unfold generate_questions_from_text
  split
  · exact Or.inr (error_shape_return _)
  · cases call with
    | googleApiError m c => exact Or.inr (error_shape_return _)
    | otherError m => exact Or.inr (error_shape_return _)
    | ok response =>
        show (∃ fields, (process_response loads response).2 = mk_question_set fields) ∨
          is_error_shape (process_response loads response).2
        unfold process_response
        split
        · exact Or.inr (error_shape_return _)
        · split
          · exact Or.inr (error_shape_return _)
          · split
            · exact Or.inr (error_shape_return _)
            · dsimp only
              split
              · exact Or.inr (error_shape_return _)
              · exact json_to_qs_shape _

/-- C9: for every input, `extract_text_from_pdf_bytes` either returns the
page texts concatenated in page order, or — on any fault raised during
parsing — returns `None` with a reported diagnostic, discarding any
partially accumulated text rather than returning it silently. -/
theorem c9_extract_total_or_null (o : PdfOutcome) :
    (∃ ps, o = PdfOutcome.pages ps ∧
        extract_text_from_pdf_bytes o =
          { result := some (ps.foldl (· ++ ·) ""), reported := [] }) ∨
    (∃ ps msg, o = PdfOutcome.failAfter ps msg ∧
        (extract_text_from_pdf_bytes o).result = none ∧
        (extract_text_from_pdf_bytes o).reported ≠ []) := by
  cases o with
  | pages ps => exact Or.inl ⟨ps, rfl, rfl⟩
  | failAfter ps msg => exact Or.inr ⟨ps, msg, rfl, rfl, by simp [extract_text_from_pdf_bytes]⟩

theorem plain_response_result (g : Gateway) (loads : String → Except String Json)
    (resume_text_content : String) (job_description_text : Option String) (t : String)
    (hclient : g.client = true) (hcfg : g.is_configured = true)
    (ht : py_truthy t = true) (hs : (py_strip t).data.isEmpty = false) :
    (generate_questions_from_text g loads (CallOutcome.ok (plain_response t))
        resume_text_content job_description_text).result
      = json_to_question_set (loads (clean_generated_text t)) := by
  unfold generate_questions_from_text
  rw [hclient, hcfg]
  simp only [Bool.not_true, Bool.or_self, Bool.false_eq_true, if_false]
  show (process_response loads (plain_response t)).2 = _
  unfold process_response plain_response blocked_reason
  simp only []
  show (if (py_strip (candidate_text _)).data.isEmpty = true then _ else
      ((if ((1 : Int) != 1) = true then _ else []),
        json_to_question_set (loads (clean_generated_text (candidate_text _))))).2 = _
  have hct : candidate_text
      { finish_reason := 1, safety_ratings := [],
        content := some { parts := [{ text := some t }] } } = t := by
    unfold candidate_text join_fragments text_fragments
    simp [ht, join_singleton]
  rw [hct, hs]
  simp only [Bool.false_eq_true, if_false]

/-- C2: every fault raised during the external call or the response
processing (a `GoogleAPIError`, any other exception, or a
`json.JSONDecodeError` while decoding the returned text) is caught, and
each operation returns a value of its normal shape: the questions operation
returns the uniform failure dictionary, the answer operation returns an
error string; in the model both operations are total, so no fault
propagates. -/
theorem c2_faults_converted (g : Gateway) (loads : String → Except String Json)
    (message : String) (code : Int) (resume_text_content q t je : String)
    (job_description_text : Option String)
    (hclient : g.client = true) (hcfg : g.is_configured = true) :
    ((generate_questions_from_text g loads (CallOutcome.googleApiError message code)
        resume_text_content job_description_text).result
      = return_error_structure ("Gemini API Error: " ++ message))
    ∧ ((generate_questions_from_text g loads (CallOutcome.otherError message)
        resume_text_content job_description_text).result
      = return_error_structure ("Unexpected error: " ++ message))
    ∧ (py_truthy q = true →
        generate_answer_for_question g (CallOutcome.googleApiError message code) q
          = "Error generating answer: " ++ message)
    ∧ (py_truthy q = true →
        generate_answer_for_question g (CallOutcome.otherError message) q
          = "Error generating answer: " ++ message)
    ∧ (py_truthy t = true → (py_strip t).data.isEmpty = false →
        loads (clean_generated_text t) = Except.error je →
        (generate_questions_from_text g loads (CallOutcome.ok (plain_response t))
            resume_text_content job_description_text).result
          = return_error_structure ("Malformed JSON from API: " ++ je)) := by
  refine ⟨?_, ?_, ?_, ?_, ?_⟩
  · unfold generate_questions_from_text
    rw [hclient, hcfg]
    rfl
  · unfold generate_questions_from_text
    rw [hclient, hcfg]
    rfl
  · intro hq
    unfold generate_answer_for_question
    rw [hclient, hcfg, hq]
    rfl
  · intro hq
    unfold generate_answer_for_question
    rw [hclient, hcfg, hq]
    rfl
  · intro ht hs hloads
    rw [plain_response_result g loads resume_text_content job_description_text t
      hclient hcfg ht hs, hloads]
    rfl

theorem c2_faults_converted_witness :
    ((generate_questions_from_text { client := true, is_configured := true }
        (fun _ => Except.error "Expecting value: line 1 column 1 (char 0)")
        (CallOutcome.googleApiError "quota exceeded" 429) "resume" none).result
      = return_error_structure ("Gemini API Error: " ++ "quota exceeded"))
    ∧ (generate_answer_for_question { client := true, is_configured := true }
        (CallOutcome.otherError "socket closed") "What is a hash map?"
      = "Error generating answer: " ++ "socket closed")
    ∧ ((generate_questions_from_text { client := true, is_configured := true }
        (fun _ => Except.error "Expecting value: line 1 column 1 (char 0)")
        (CallOutcome.ok (plain_response "Sure, here are some questions...")) "resume" none).result
      = return_error_structure
          ("Malformed JSON from API: " ++ "Expecting value: line 1 column 1 (char 0)")) := by
  have h := c2_faults_converted { client := true, is_configured := true }
    (fun _ => Except.error "Expecting value: line 1 column 1 (char 0)")
    "quota exceeded" 429 "resume" "What is a hash map?" "Sure, here are some questions..."
    "Expecting value: line 1 column 1 (char 0)" none rfl rfl
  have h2 := c2_faults_converted { client := true, is_configured := true }
    (fun _ => Except.error "Expecting value: line 1 column 1 (char 0)")
    "socket closed" 429 "resume" "What is a hash map?" "Sure, here are some questions..."
    "Expecting value: line 1 column 1 (char 0)" none rfl rfl
  exact ⟨h.1, h2.2.2.2.1 (by decide), h.2.2.2.2 (by decide) (by decide) rfl⟩

/-- C3 counterexample: a response whose first candidate terminates with the
non-nominal reason 2 (MAX_TOKENS) but carries the non-empty text
`"partial answer"`.  `generate_questions_from_text` would warn and use that
content, but `generate_answer_for_question` returns the atypical-finish
diagnostic instead of the trimmed text, so the two operations do not share
the same classification protocol. -/
theorem c3_counterexample :
    generate_answer_for_question { client := true, is_configured := true }
        (CallOutcome.ok { prompt_feedback := none,
                          candidates := [{ finish_reason := 2, safety_ratings := [],
                                           content := some { parts := [{ text := some "partial answer" }] } }] })
        "Explain how you tested project B."
      = "Answer generation finished atypically. Reason: 2"
    ∧ "Answer generation finished atypically. Reason: 2"
        ≠ py_strip (join_fragments [{ text := some "partial answer" }]) := by
  exact ⟨rfl, by decide⟩

/-- C3 amended: `generate_answer_for_question` shares the blocked-prompt and
no-candidates checks with `generate_questions_from_text` but then applies a
simplified protocol: any non-STOP finish reason returns a diagnostic
immediately, even when the candidate carries non-empty text (no
partial-success-with-warning); and when content parts are present the
trimmed joined text is returned even if it is empty (no empty-content
diagnostic). -/
theorem c3_amended_answer_classification (g : Gateway) (q : String)
    (response : GeminiResponse) (candidate : Candidate) (rest : List Candidate)
    (hclient : g.client = true) (hcfg : g.is_configured = true)
    (hq : py_truthy q = true) (hblock : blocked_reason response = none)
    (hcand : response.candidates = candidate :: rest) :
    (candidate.finish_reason ≠ 1 →
      generate_answer_for_question g (CallOutcome.ok response) q
        = "Answer generation finished atypically. Reason: "
            ++ toString candidate.finish_reason)
    ∧ (∀ content, candidate.finish_reason = 1 → candidate.content = some content →
        content.parts.isEmpty = false →
        generate_answer_for_question g (CallOutcome.ok response) q
          = py_strip (join_fragments content.parts)) := by
  constructor
  · intro hfr
    have hb : (candidate.finish_reason != 1) = true := by simp [bne_iff_ne, hfr]
    unfold generate_answer_for_question
    simp only [hclient, hcfg, hq, Bool.not_true, Bool.or_self, Bool.false_eq_true,
      if_false, hblock, hcand, hb, if_true]
  · intro content hfr hcontent hparts
    have hb : (candidate.finish_reason != 1) = false := by simp [hfr]
    unfold generate_answer_for_question
    simp only [hclient, hcfg, hq, Bool.not_true, Bool.or_self, Bool.false_eq_true,
      if_false, hblock, hcand, hb, hcontent, hparts, Bool.not_false, if_true]

theorem c3_amended_answer_classification_witness :
    (generate_answer_for_question { client := true, is_configured := true }
        (CallOutcome.ok { prompt_feedback := none,
                          candidates := [{ finish_reason := 3, safety_ratings := [],
                                           content := some { parts := [{ text := some "unsafe text" }] } }] })
        "Describe a mistake you made."
      = "Answer generation finished atypically. Reason: " ++ toString (3 : Int))
    ∧ (generate_answer_for_question { client := true, is_configured := true }
        (CallOutcome.ok { prompt_feedback := none,
                          candidates := [{ finish_reason := 1, safety_ratings := [],
                                           content := some { parts := [{ text := some "  a model answer  " }] } }] })
        "Describe a mistake you made."
      = py_strip (join_fragments [{ text := some "  a model answer  " }])) := by
  constructor
  · exact (c3_amended_answer_classification { client := true, is_configured := true }
      "Describe a mistake you made."
      { prompt_feedback := none,
        candidates := [{ finish_reason := 3, safety_ratings := [],
                         content := some { parts := [{ text := some "unsafe text" }] } }] }
      { finish_reason := 3, safety_ratings := [],
        content := some { parts := [{ text := some "unsafe text" }] } } []
      rfl rfl (by decide) rfl rfl).1 (by decide)
  · exact (c3_amended_answer_classification { client := true, is_configured := true }
      "Describe a mistake you made."
      { prompt_feedback := none,
        candidates := [{ finish_reason := 1, safety_ratings := [],
                         content := some { parts := [{ text := some "  a model answer  " }] } }] }
      { finish_reason := 1, safety_ratings := [],
        content := some { parts := [{ text := some "  a model answer  " }] } } []
      rfl rfl (by decide) rfl rfl).2
      { parts := [{ text := some "  a model answer  " }] } rfl rfl rfl

/-- C4: if `job_description_text` is absent, empty, or whitespace-only, the
built prompt contains the fixed placeholder sentence
`"No job description provided."` in place of the auxiliary section;
otherwise the prompt contains the job-description section embedding
`job_description_text` verbatim. -/
theorem c4_prompt_jd_placeholder (resume_text_content : String)
    (job_description_text : Option String) :
    ((job_description_text = none ∨
        ∃ s, job_description_text = some s ∧ (py_strip s).data.isEmpty = true) →
      ∃ pre post, build_questions_prompt resume_text_content job_description_text
        = pre ++ ("No job description provided." ++ post))
    ∧ (∀ s, job_description_text = some s → py_truthy s = true →
        py_truthy (py_strip s) = true →
      ∃ pre post, build_questions_prompt resume_text_content job_description_text
        = pre ++ (("\n        **Job Description:**\n        ---\n        "
            ++ s ++ "\n        ---") ++ post)) := by
  constructor
  · intro h
    refine ⟨prompt_head ++ resume_text_content ++ prompt_between, prompt_tail, ?_⟩
    have hsec : job_description_section job_description_text
        = "No job description provided." := by
      rcases h with h | ⟨s, hs, hstrip⟩
      · rw [h]; rfl
      · have hps : py_truthy (py_strip s) = false := by
          unfold py_truthy; rw [hstrip]; rfl
        rw [hs]
        unfold job_description_section
        simp only [hps, Bool.and_false, Bool.false_eq_true, if_false]
    rw [build_questions_prompt, hsec, string_append_assoc, string_append_assoc]
  · intro s hs htr hstr
    refine ⟨prompt_head ++ resume_text_content ++ prompt_between, prompt_tail, ?_⟩
    have hsec : job_description_section job_description_text
        = "\n        **Job Description:**\n        ---\n        " ++ s
            ++ "\n        ---" := by
      rw [hs]
      unfold job_description_section
      simp only [htr, hstr, Bool.and_self, if_true]
    rw [build_questions_prompt, hsec, string_append_assoc, string_append_assoc]

theorem c4_prompt_jd_placeholder_witness :
    (∃ pre post, build_questions_prompt "Python, React, Docker" (some "   ")
        = pre ++ ("No job description provided." ++ post))
    ∧ (∃ pre post, build_questions_prompt "Python, React, Docker" (some "Backend intern role")
        = pre ++ (("\n        **Job Description:**\n        ---\n        "
            ++ "Backend intern role" ++ "\n        ---") ++ post)) :=
  ⟨(c4_prompt_jd_placeholder "Python, React, Docker" (some "   ")).1
      (Or.inr ⟨"   ", rfl, by decide⟩),
    (c4_prompt_jd_placeholder "Python, React, Docker" (some "Backend intern role")).2
      "Backend intern role" rfl (by decide) (by decide)⟩

/-- C5 round-trip: when the response text decodes to a JSON object carrying
exactly the four expected keys, each mapped to a sequence of strings, the
returned `QuestionSet` equals that map key-for-key, preserving the order of
the strings in each sequence. -/
theorem c5_round_trip (g : Gateway) (loads : String → Except String Json)
    (resume_text_content : String) (job_description_text : Option String)
    (t : String) (ta ba pa sa : List String)
    (hclient : g.client = true) (hcfg : g.is_configured = true)
    (ht : py_truthy t = true) (hs : (py_strip t).data.isEmpty = false)
    (hloads : loads (clean_generated_text t) = Except.ok (Json.obj
        [("technical", Json.arr (ta.map Json.str)),
         ("behavioral", Json.arr (ba.map Json.str)),
         ("project_specific", Json.arr (pa.map Json.str)),
         ("scenario_based", Json.arr (sa.map Json.str))])) :
    (generate_questions_from_text g loads (CallOutcome.ok (plain_response t))
        resume_text_content job_description_text).result
      = { technical := Json.arr (ta.map Json.str),
          behavioral := Json.arr (ba.map Json.str),
          project_specific := Json.arr (pa.map Json.str),
          scenario_based := Json.arr (sa.map Json.str) } := by
  rw [plain_response_result g loads resume_text_content job_description_text t
    hclient hcfg ht hs, hloads]
  rfl

theorem c5_round_trip_witness :
    (generate_questions_from_text { client := true, is_configured := true }
        (fun u =>
          if u = "\x7b\"technical\": [\"Q1\"], \"behavioral\": [], \"project_specific\": [], \"scenario_based\": []\x7d"
          then Except.ok (Json.obj
                 [("technical", Json.arr (["Q1"].map Json.str)),
                  ("behavioral", Json.arr (([] : List String).map Json.str)),
                  ("project_specific", Json.arr (([] : List String).map Json.str)),
                  ("scenario_based", Json.arr (([] : List String).map Json.str))])
          else Except.error "Expecting value: line 1 column 1 (char 0)")
        (CallOutcome.ok (plain_response
          "\x7b\"technical\": [\"Q1\"], \"behavioral\": [], \"project_specific\": [], \"scenario_based\": []\x7d"))
        "resume" none).result
      = { technical := Json.arr (["Q1"].map Json.str),
          behavioral := Json.arr (([] : List String).map Json.str),
          project_specific := Json.arr (([] : List String).map Json.str),
          scenario_based := Json.arr (([] : List String).map Json.str) } :=
  c5_round_trip { client := true, is_configured := true } _ "resume" none
    "\x7b\"technical\": [\"Q1\"], \"behavioral\": [], \"project_specific\": [], \"scenario_based\": []\x7d"
    ["Q1"] [] [] [] rfl rfl (by decide) (by decide) rfl

/-- C6 lenient merge: when the response text decodes to a JSON object, any
of the four expected keys that is missing defaults to an empty sequence,
any key outside the four is ignored, and no failure result is produced on
account of missing or extra keys. -/
theorem c6_lenient_merge (g : Gateway) (loads : String → Except String Json)
    (resume_text_content : String) (job_description_text : Option String)
    (t : String) (tq : List String) (extra : Json)
    (hclient : g.client = true) (hcfg : g.is_configured = true)
    (ht : py_truthy t = true) (hs : (py_strip t).data.isEmpty = false)
    (hloads : loads (clean_generated_text t) = Except.ok (Json.obj
        [("technical", Json.arr (tq.map Json.str)), ("unexpected_key", extra)])) :
    (generate_questions_from_text g loads (CallOutcome.ok (plain_response t))
        resume_text_content job_description_text).result
      = { technical := Json.arr (tq.map Json.str),
          behavioral := Json.arr [],
          project_specific := Json.arr [],
          scenario_based := Json.arr [] } := by
  rw [plain_response_result g loads resume_text_content job_description_text t
    hclient hcfg ht hs, hloads]
  rfl

theorem c6_lenient_merge_witness :
    (generate_questions_from_text { client := true, is_configured := true }
        (fun u =>
          if u = "\x7b\"technical\": [\"Q1\"], \"notes\": \"extra\"\x7d"
          then Except.ok (Json.obj
                 [("technical", Json.arr (["Q1"].map Json.str)),
                  ("unexpected_key", Json.str "extra")])
          else Except.error "Expecting value: line 1 column 1 (char 0)")
        (CallOutcome.ok (plain_response "\x7b\"technical\": [\"Q1\"], \"notes\": \"extra\"\x7d"))
        "resume" none).result
      = { technical := Json.arr (["Q1"].map Json.str),
          behavioral := Json.arr [],
          project_specific := Json.arr [],
          scenario_based := Json.arr [] } :=
  c6_lenient_merge { client := true, is_configured := true } _ "resume" none
    "\x7b\"technical\": [\"Q1\"], \"notes\": \"extra\"\x7d"
    ["Q1"] (Json.str "extra") rfl rfl (by decide) (by decide) rfl

theorem py_startswith_append (a b : String) : py_startswith (a ++ b) a = true := by
  unfold py_startswith
  rw [string_data_append, List.take_left]
  exact beq_self_eq_true _

theorem py_endswith_append (a b : String) : py_endswith (a ++ b) b = true := by
  unfold py_endswith
  rw [string_data_append, List.length_append, Nat.add_sub_cancel, List.drop_left]
  exact beq_self_eq_true _

theorem py_drop_append (a b : String) : py_drop (a ++ b) a.data.length = b := by
  unfold py_drop
  rw [string_data_append, List.drop_left]

theorem py_dropright_append (a b : String) : py_dropright (a ++ b) b.data.length = a := by
  unfold py_dropright
  rw [string_data_append, List.length_append, Nat.add_sub_cancel, List.take_left]

theorem clean_of_fenced (t body : String)
    (hfence : py_strip t = "```json" ++ body ++ "```") :
    clean_generated_text t = body := by
  have h7 : ("```json" : String).data.length = 7 := rfl
  have h3 : ("```" : String).data.length = 3 := rfl
  unfold clean_generated_text
  rw [hfence]
  dsimp only
  rw [string_append_assoc]
  rw [py_startswith_append "```json" (body ++ "```"), if_pos rfl, ← h7,
    py_drop_append "```json" (body ++ "```"), py_endswith_append body "```",
    if_pos rfl, ← h3, py_dropright_append body "```"]

/-- C7 code-fence stripping: when the response text trims to
`"```json" + body + "```"`, the string handed to `json.loads` is exactly
`body`, so the resulting `QuestionSet` is the one obtained by decoding the
inner body alone. -/
theorem c7_code_fence (t body : String) (g : Gateway)
    (loads : String → Except String Json) (resume_text_content : String)
    (job_description_text : Option String)
    (hfence : py_strip t = "```json" ++ body ++ "```")
    (hclient : g.client = true) (hcfg : g.is_configured = true) :
    clean_generated_text t = body
    ∧ (generate_questions_from_text g loads (CallOutcome.ok (plain_response t))
        resume_text_content job_description_text).result
      = json_to_question_set (loads body) := by
  have hs : (py_strip t).data.isEmpty = false := by rw [hfence]; rfl
  have ht : py_truthy t = true := by
    cases hd : t.data with
    | nil =>
        exfalso
        have h0 : py_strip t = "" := by
          unfold py_strip strip_chars
          rw [hd]
          rfl
        rw [h0] at hfence
        exact List.noConfusion (congrArg String.data hfence)
    | cons a l =>
        unfold py_truthy
        rw [hd]
        rfl
  have hcln := clean_of_fenced t body hfence
  refine ⟨hcln, ?_⟩
  rw [plain_response_result g loads resume_text_content job_description_text t
    hclient hcfg ht hs, hcln]

theorem c7_code_fence_witness :
    clean_generated_text "```json\n\x7b\"technical\": []\x7d\n```"
      = "\n\x7b\"technical\": []\x7d\n"
    ∧ (generate_questions_from_text { client := true, is_configured := true }
        (fun _ => Except.error "Expecting value: line 1 column 1 (char 0)")
        (CallOutcome.ok (plain_response "```json\n\x7b\"technical\": []\x7d\n```"))
        "resume" none).result
      = json_to_question_set ((fun _ => Except.error "Expecting value: line 1 column 1 (char 0)")
          "\n\x7b\"technical\": []\x7d\n") :=
  c7_code_fence "```json\n\x7b\"technical\": []\x7d\n```" "\n\x7b\"technical\": []\x7d\n"
    { client := true, is_configured := true }
    (fun _ => Except.error "Expecting value: line 1 column 1 (char 0)")
    "resume" none (by decide) rfl rfl

/-- C8 counterexample: with a configured gateway,
`generate_questions_from_text` called with empty `resume_text_content`
still issues an outbound request — the operation itself does not enforce
the non-empty invariant. -/
theorem c8_counterexample :
    ((generate_questions_from_text { client := true, is_configured := true }
        (fun _ => Except.error "Expecting value: line 1 column 1 (char 0)")
        (CallOutcome.otherError "transport fault") "" none).request).isSome = true := by
  rfl

/-- C8 amended: `generate_questions_from_text` issues the outbound request
exactly when the gateway is configured, regardless of whether
`primary_text` is empty; the non-empty invariant is enforced only by the
presentation layer, whose button handler invokes the operation solely when
the extracted resume text is truthy. -/
theorem c8_amended_request_gating (g : Gateway) (loads : String → Except String Json)
    (call : CallOutcome) (resume_text_content : String)
    (job_description_text : Option String) :
    ((generate_questions_from_text g loads call resume_text_content
        job_description_text).request.isSome = (g.client && g.is_configured))
    ∧ (∀ (gen_present : Bool) (resume_text : Option String) (run : GenQuestionsRun),
        app_generate_questions gen_present g loads call resume_text
            job_description_text = some run →
        ∃ t, resume_text = some t ∧ py_truthy t = true) := by
  constructor
  · unfold generate_questions_from_text
    cases hc : g.client <;> cases hk : g.is_configured <;> cases call <;> rfl
  · intro gen_present resume_text run h
    unfold app_generate_questions at h
    split at h
    · exact Option.noConfusion h
    · cases resume_text with
      | none => exact Option.noConfusion h
      | some t =>
          dsimp only at h
          cases hpt : py_truthy t with
          | false => rw [hpt] at h; simp at h
          | true => exact ⟨t, rfl, hpt⟩

theorem c8_amended_request_gating_witness :
    ((generate_questions_from_text { client := true, is_configured := true }
        (fun _ => Except.error "Expecting value: line 1 column 1 (char 0)")
        (CallOutcome.otherError "transport fault") "resume text" none).request.isSome
      = (true && true))
    ∧ (∃ t, (some "resume text" : Option String) = some t ∧ py_truthy t = true) := by
  constructor
  · exact (c8_amended_request_gating { client := true, is_configured := true }
      (fun _ => Except.error "Expecting value: line 1 column 1 (char 0)")
      (CallOutcome.otherError "transport fault") "resume text" none).1
  · exact (c8_amended_request_gating { client := true, is_configured := true }
      (fun _ => Except.error "Expecting value: line 1 column 1 (char 0)")
      (CallOutcome.otherError "transport fault") "resume text" none).2
      true (some "resume text") _ rfl

theorem text_fragments_nil (parts : List ContentPart)
    (hall : ∀ p ∈ parts, p.text = none ∨ p.text = some "") :
    text_fragments parts = [] := by
  induction parts with
  | nil => rfl
  | cons p ps ih =>
      have hp := hall p (by simp)
      have ihp : text_fragments ps = [] := ih (fun x hx => hall x (by simp [hx]))
      unfold text_fragments at ihp ⊢
      rw [List.filterMap_cons]
      rcases hp with h | h <;> rw [h] <;> simpa [py_truthy] using ihp

/-- C10: with a nominally terminated candidate whose content parts are
present but all carry empty or absent text, `generate_answer_for_question`
returns the empty string rather than any diagnostic; the
`"No text content found..."` diagnostic is produced only when the content
or parts attribute is absent entirely, so the empty success is not
distinguishable from an error by inspecting the result. -/
theorem c10_empty_parts_empty_answer (g : Gateway) (q : String)
    (parts : List ContentPart)
    (hclient : g.client = true) (hcfg : g.is_configured = true)
    (hq : py_truthy q = true) (hne : parts ≠ [])
    (hall : ∀ p ∈ parts, p.text = none ∨ p.text = some "") :
    generate_answer_for_question g
        (CallOutcome.ok { prompt_feedback := none,
                          candidates := [{ finish_reason := 1, safety_ratings := [],
                                           content := some { parts := parts } }] }) q
      = ""
    ∧ generate_answer_for_question g
        (CallOutcome.ok { prompt_feedback := none,
                          candidates := [{ finish_reason := 1, safety_ratings := [],
                                           content := none }] }) q
      = "No text content found in Gemini response for the answer."
    ∧ generate_answer_for_question g
        (CallOutcome.ok { prompt_feedback := none,
                          candidates := [{ finish_reason := 1, safety_ratings := [],
                                           content := some { parts := [] } }] }) q
      = "No text content found in Gemini response for the answer." := by
  have hpe : parts.isEmpty = false := by
    cases parts with
    | nil => exact absurd rfl hne
    | cons a l => rfl
  have hjoin : join_fragments parts = "" := by
    unfold join_fragments
    rw [text_fragments_nil parts hall]
    rfl
  refine ⟨?_, ?_, ?_⟩
  · unfold generate_answer_for_question
    simp only [hclient, hcfg, hq, Bool.not_true, Bool.or_self, Bool.false_eq_true,
      if_false, if_true]
    show (if (!parts.isEmpty) = true then py_strip (join_fragments parts) else _) = ""
    rw [hpe, hjoin]
    rfl
  · unfold generate_answer_for_question
    rw [hclient, hcfg, hq]
    rfl
  · unfold generate_answer_for_question
    rw [hclient, hcfg, hq]
    rfl

theorem c10_empty_parts_empty_answer_witness :
    ((some "What is a mutex?" : Option String) = some "What is a mutex?") ∧
    generate_answer_for_question { client := true, is_configured := true }
        (CallOutcome.ok { prompt_feedback := none,
                          candidates := [{ finish_reason := 1, safety_ratings := [],
                                           content := some { parts := [{ text := some "" }, { text := none }] } }] })
        "What is a mutex?"
      = "" :=
  ⟨rfl, (c10_empty_parts_empty_answer { client := true, is_configured := true }
    "What is a mutex?" [{ text := some "" }, { text := none }] rfl rfl (by decide)
    (fun hcon => List.noConfusion hcon) (by decide)).1⟩
